import Mathlib

/-!
Verification of the certificate-generation repository.

The repository consists of three Python files:
* `juststart.py` — simple certificate generator (name only),
* `starting_ending.py` — full certificate generator (name plus two date strings,
  PNG and PDF output),
* `config.py` — configuration dataclasses and `validate_configuration`.

This file gives a shallow embedding of the layout arithmetic, the name
transformation, the per-row rendering, the batch orchestration and the
configuration validation, and proves the specification's claims about them.

Modelling conventions:
* Pixel quantities are `ℤ`.  The Python expression
  `int((img_width - text_width) / 2 + x_adjustment)` computes an exact
  half-integer in float arithmetic (integer differences divided by 2) and
  `int()` truncates toward zero, so it is embedded as
  `Int.tdiv (img_width - text_width + 2 * x_adjustment) 2`.
* Python `str.title()` is embedded following CPython's do_title loop, with
  full (possibly multi-code-point) case mappings and the Unicode Cased
  property given on the code points the development manipulates: ASCII (via
  Lean core's `Char.isAlpha`, `Char.toUpper`, `Char.toLower`, which agree
  with Python there) plus U+0130 and U+0307, whose lowercase mapping
  İ → i + U+0307 CPython applies inside title().
* File-system and imaging effects (template decode, `cv2.imwrite`,
  `img2pdf.convert`) are abstracted by boolean oracles carried on each row,
  and the files written during a batch run are returned as an explicit trace.
-/

namespace CertGen

/-! ## Layout engine -/

/-- Embedding of the position arithmetic shared by
`calculate_centered_position` (`juststart.py`, lines 120-124) and
`draw_text_on_image` (`starting_ending.py`, lines 128-131):

  `text_x = int((img_width - text_width) / 2 + x_adjustment)`
  `text_y = int((img_height + text_height) / 2 - y_adjustment)`

The float value `(a : ℤ) / 2 + (b : ℤ)` equals the rational `(a + 2*b)/2`
exactly, and Python `int()` truncates toward zero, which is `Int.tdiv`.
-/
def calculate_centered_position
    (imgWidth imgHeight textWidth textHeight xAdjustment yAdjustment : ℤ) : ℤ × ℤ :=
  (Int.tdiv (imgWidth - textWidth + 2 * xAdjustment) 2,
   Int.tdiv (imgHeight + textHeight - 2 * yAdjustment) 2)

/-- The layout formula as written in the spec (spec.md §4.1):
`x = floor((canvas_width - text_width) / 2) + offset_x`;
`y = floor((canvas_height + text_height) / 2) - offset_y`.
`Int.fdiv` is floor division.
-/
def compute_text_origin_spec
    (canvasWidth canvasHeight textWidth textHeight offsetX offsetY : ℤ) : ℤ × ℤ :=
  (Int.fdiv (canvasWidth - textWidth) 2 + offsetX,
   Int.fdiv (canvasHeight + textHeight) 2 - offsetY)

theorem tdiv_two_eq_ediv {a : ℤ} (h : 0 ≤ a) : Int.tdiv a 2 = a / 2 :=
  Int.tdiv_eq_ediv h (by norm_num)

theorem fdiv_two_eq_ediv (a : ℤ) : Int.fdiv a 2 = a / 2 :=
  Int.fdiv_eq_ediv a (by norm_num)

/-- C1 counterexample: with canvas 10×10, text extent 5×5 and offsets (-3, 8),
the code truncates toward zero where the spec formula floors, and the two
disagree (code gives `(0, 0)`, the spec formula gives `(-1, -1)`). -/
theorem calculate_centered_position_ne_spec_formula :
    calculate_centered_position 10 10 5 5 (-3) 8 ≠
      compute_text_origin_spec 10 10 5 5 (-3) 8 := by
  decide

/-- C1 (amended): whenever the computed raw positions are nonnegative — in
particular for every placement that lands on the canvas — the code's
truncation agrees with the spec's floor formula:
`x = floor((W - w)/2) + dx` and `y = floor((H + h)/2) - dy`. -/
theorem calculate_centered_position_eq_spec_formula
    (W H w h dx dy : ℤ)
    (hx : 0 ≤ W - w + 2 * dx) (hy : 0 ≤ H + h - 2 * dy) :
    calculate_centered_position W H w h dx dy =
      compute_text_origin_spec W H w h dx dy := by
  unfold calculate_centered_position compute_text_origin_spec
  rw [tdiv_two_eq_ediv hx, tdiv_two_eq_ediv hy, fdiv_two_eq_ediv, fdiv_two_eq_ediv]
  rw [Prod.mk.injEq]
  omega

/-- Witness for C1's amended theorem at canvas 100×60, text 40×10, offsets (3, 5). -/
theorem calculate_centered_position_eq_spec_formula_witness :
    (0 : ℤ) ≤ 100 - 40 + 2 * 3 ∧ (0 : ℤ) ≤ 60 + 10 - 2 * 5 ∧
      calculate_centered_position 100 60 40 10 3 5 =
        compute_text_origin_spec 100 60 40 10 3 5 :=
  ⟨by decide, by decide,
    calculate_centered_position_eq_spec_formula 100 60 40 10 3 5 (by decide) (by decide)⟩

/-- C2 counterexample: with canvas 10×10 and text extent 5×5, raising the x
offset from -3 to 0 (k = 3) moves the returned x from 0 to 2, not to 3:
truncation toward zero is not shift-invariant across zero. -/
theorem calculate_centered_position_shift_fails :
    (calculate_centered_position 10 10 5 5 (-3 + 3) 0).1 ≠
      (calculate_centered_position 10 10 5 5 (-3) 0).1 + 3 := by
  decide

/-- C2 (amended): the offset-shift invariants `x(dx + k) = x(dx) + k` and
`y(dy + k) = y(dy) - k` hold whenever the raw positions before and after the
shift are nonnegative (no crossing of zero, where truncation toward zero
breaks shift-invariance). -/
theorem calculate_centered_position_shift
    (W H w h dx dy k : ℤ)
    (hx1 : 0 ≤ W - w + 2 * dx) (hx2 : 0 ≤ W - w + 2 * (dx + k))
    (hy1 : 0 ≤ H + h - 2 * dy) (hy2 : 0 ≤ H + h - 2 * (dy + k)) :
    (calculate_centered_position W H w h (dx + k) dy).1 =
        (calculate_centered_position W H w h dx dy).1 + k ∧
      (calculate_centered_position W H w h dx (dy + k)).2 =
        (calculate_centered_position W H w h dx dy).2 - k := by
  unfold calculate_centered_position
  simp only
  rw [tdiv_two_eq_ediv hx1, tdiv_two_eq_ediv hy1,
    tdiv_two_eq_ediv (by omega : (0 : ℤ) ≤ W - w + 2 * (dx + k)),
    tdiv_two_eq_ediv (by omega : (0 : ℤ) ≤ H + h - 2 * (dy + k))]
  omega

/-- Witness for C2's amended theorem at canvas 100×100, text 11×9,
offsets (2, 3), shift k = 4. -/
theorem calculate_centered_position_shift_witness :
    (0 : ℤ) ≤ 100 - 11 + 2 * 2 ∧ (0 : ℤ) ≤ 100 - 11 + 2 * (2 + 4) ∧
      (0 : ℤ) ≤ 100 + 9 - 2 * 3 ∧ (0 : ℤ) ≤ 100 + 9 - 2 * (3 + 4) ∧
      ((calculate_centered_position 100 100 11 9 (2 + 4) 3).1 =
          (calculate_centered_position 100 100 11 9 2 3).1 + 4 ∧
        (calculate_centered_position 100 100 11 9 2 (3 + 4)).2 =
          (calculate_centered_position 100 100 11 9 2 3).2 - 4) :=
  ⟨by decide, by decide, by decide, by decide,
    calculate_centered_position_shift 100 100 11 9 2 3 4
      (by decide) (by decide) (by decide) (by decide)⟩

/-- C3: with zero offsets and a text extent strictly smaller than the canvas,
the returned origin centers the text bounding box within one pixel of the
canvas center on each axis.  With the baseline-left convention the box spans
`[x, x + w] × [y - h, y]`, so its center is `(x + w/2, y - h/2)`; being
within one pixel of `(W/2, H/2)` is `|2x + w - W| ≤ 2 ∧ |2y - h - H| ≤ 2`. -/
theorem calculate_centered_position_centers
    (W H w h : ℤ) (hw0 : 0 ≤ w) (hh0 : 0 ≤ h) (hw : w < W) (hh : h < H) :
    |2 * (calculate_centered_position W H w h 0 0).1 + w - W| ≤ 2 ∧
      |2 * (calculate_centered_position W H w h 0 0).2 - h - H| ≤ 2 := by
  unfold calculate_centered_position
  simp only
  rw [tdiv_two_eq_ediv (by omega : (0 : ℤ) ≤ W - w + 2 * 0),
    tdiv_two_eq_ediv (by omega : (0 : ℤ) ≤ H + h - 2 * 0),
    abs_le, abs_le]
  omega

/-- Witness for C3 at canvas 10×10 and text extent 5×5. -/
theorem calculate_centered_position_centers_witness :
    (0 : ℤ) ≤ 5 ∧ (0 : ℤ) ≤ 5 ∧ (5 : ℤ) < 10 ∧ (5 : ℤ) < 10 ∧
      (|2 * (calculate_centered_position 10 10 5 5 0 0).1 + 5 - 10| ≤ 2 ∧
        |2 * (calculate_centered_position 10 10 5 5 0 0).2 - 5 - 10| ≤ 2) :=
  ⟨by decide, by decide, by decide, by decide,
    calculate_centered_position_centers 10 10 5 5 (by decide) (by decide)
      (by decide) (by decide)⟩

/-! ## Name transformation: Python `str.title()`

`juststart.py` line 150 (`participant_name.title()`) and `starting_ending.py`
line 182 (`str(row["Name"]).title()`) title-case the participant name.
CPython's do_title loop walks the string keeping a previous-character-is-cased
flag: every character is mapped with the full Unicode lowercase mapping when
the flag is set and with the full titlecase mapping otherwise, and the flag is
then updated from the *input* character's Unicode Cased property.  Full case
mappings may emit more than one code point, and the emitted code points may be
uncased: U+0130 (LATIN CAPITAL LETTER I WITH DOT ABOVE) lowercases to
i + U+0307 (COMBINING DOT ABOVE), and U+0307 is not cased.  The embedding
below reproduces this loop; the Cased property and the case mappings are given
on the code points this development manipulates — all of ASCII (where Lean
core's `Char.isAlpha`, `Char.toUpper`, `Char.toLower` agree with Python) plus
U+0130 and U+0307 — and leave other code points unchanged and uncased. -/

theorem char_toNat_ofNat_valid (n : Nat) (h : n.isValidChar) :
    (Char.ofNat n).toNat = n := by
  simp only [Char.ofNat, h, dite_true, Char.ofNatAux, Char.toNat]
  rfl

theorem char_isValidChar_of_le (n : Nat) (h1 : 65 ≤ n) (h2 : n ≤ 122) :
    n.isValidChar :=
  Or.inl (by omega)

theorem char_isAlpha_iff (c : Char) :
    c.isAlpha = true ↔
      (65 ≤ c.toNat ∧ c.toNat ≤ 90) ∨ (97 ≤ c.toNat ∧ c.toNat ≤ 122) := by
  simp only [Char.isAlpha, Char.isUpper, Char.isLower, Bool.or_eq_true,
    Bool.and_eq_true, decide_eq_true_eq, ge_iff_le, Char.toNat]
  constructor
  · rintro (⟨h1, h2⟩ | ⟨h1, h2⟩)
    · exact Or.inl ⟨UInt32.le_def.mp h1, UInt32.le_def.mp h2⟩
    · exact Or.inr ⟨UInt32.le_def.mp h1, UInt32.le_def.mp h2⟩
  · rintro (⟨h1, h2⟩ | ⟨h1, h2⟩)
    · exact Or.inl ⟨UInt32.le_def.mpr h1, UInt32.le_def.mpr h2⟩
    · exact Or.inr ⟨UInt32.le_def.mpr h1, UInt32.le_def.mpr h2⟩

theorem char_toUpper_toNat_of_lower (c : Char)
    (h : 97 ≤ c.toNat ∧ c.toNat ≤ 122) : c.toUpper.toNat = c.toNat - 32 := by
  unfold Char.toUpper
  rw [if_pos h]
  exact char_toNat_ofNat_valid _ (char_isValidChar_of_le _ (by omega) (by omega))

theorem char_toUpper_eq_self (c : Char)
    (h : ¬(97 ≤ c.toNat ∧ c.toNat ≤ 122)) : c.toUpper = c := by
  unfold Char.toUpper
  rw [if_neg h]

theorem char_toLower_toNat_of_upper (c : Char)
    (h : 65 ≤ c.toNat ∧ c.toNat ≤ 90) : c.toLower.toNat = c.toNat + 32 := by
  unfold Char.toLower
  rw [if_pos h]
  exact char_toNat_ofNat_valid _ (char_isValidChar_of_le _ (by omega) (by omega))

theorem char_toLower_eq_self (c : Char)
    (h : ¬(65 ≤ c.toNat ∧ c.toNat ≤ 90)) : c.toLower = c := by
  unfold Char.toLower
  rw [if_neg h]

theorem char_isAlpha_toUpper_eq (c : Char) : c.toUpper.isAlpha = c.isAlpha := by
  by_cases hl : 97 ≤ c.toNat ∧ c.toNat ≤ 122
  · have hn := char_toUpper_toNat_of_lower c hl
    have h1 : c.toUpper.isAlpha = true :=
      (char_isAlpha_iff _).mpr (Or.inl (by omega))
    have h2 : c.isAlpha = true := (char_isAlpha_iff _).mpr (Or.inr hl)
    rw [h1, h2]
  · rw [char_toUpper_eq_self c hl]

theorem char_isAlpha_toLower_eq (c : Char) : c.toLower.isAlpha = c.isAlpha := by
  by_cases hu : 65 ≤ c.toNat ∧ c.toNat ≤ 90
  · have hn := char_toLower_toNat_of_upper c hu
    have h1 : c.toLower.isAlpha = true :=
      (char_isAlpha_iff _).mpr (Or.inr (by omega))
    have h2 : c.isAlpha = true := (char_isAlpha_iff _).mpr (Or.inl hu)
    rw [h1, h2]
  · rw [char_toLower_eq_self c hu]

theorem char_toUpper_eq_self_of_not_alpha (c : Char) (h : c.isAlpha = false) :
    c.toUpper = c := by
  apply char_toUpper_eq_self
  intro hl
  have halpha := (char_isAlpha_iff c).mpr (Or.inr hl)
  rw [h] at halpha
  exact Bool.noConfusion halpha

theorem char_toLower_eq_self_of_not_alpha (c : Char) (h : c.isAlpha = false) :
    c.toLower = c := by
  apply char_toLower_eq_self
  intro hu
  have halpha := (char_isAlpha_iff c).mpr (Or.inl hu)
  rw [h] at halpha
  exact Bool.noConfusion halpha

theorem char_toUpper_toNat_lt_128 (c : Char) (h : c.toNat < 128) :
    c.toUpper.toNat < 128 := by
  by_cases hl : 97 ≤ c.toNat ∧ c.toNat ≤ 122
  · rw [char_toUpper_toNat_of_lower c hl]
    omega
  · rw [char_toUpper_eq_self c hl]
    exact h

theorem char_toLower_toNat_lt_128 (c : Char) (h : c.toNat < 128) :
    c.toLower.toNat < 128 := by
  by_cases hu : 65 ≤ c.toNat ∧ c.toNat ≤ 90
  · rw [char_toLower_toNat_of_upper c hu]
    omega
  · rw [char_toLower_eq_self c hu]
    exact h

theorem char_toUpper_toUpper (c : Char) : c.toUpper.toUpper = c.toUpper := by
  by_cases hl : 97 ≤ c.toNat ∧ c.toNat ≤ 122
  · have hn := char_toUpper_toNat_of_lower c hl
    exact char_toUpper_eq_self _ (by omega)
  · rw [char_toUpper_eq_self c hl, char_toUpper_eq_self c hl]

theorem char_toLower_toLower (c : Char) : c.toLower.toLower = c.toLower := by
  by_cases hu : 65 ≤ c.toNat ∧ c.toNat ≤ 90
  · have hn := char_toLower_toNat_of_upper c hu
    exact char_toLower_eq_self _ (by omega)
  · rw [char_toLower_eq_self c hu, char_toLower_eq_self c hu]

/-- The Unicode Cased property as consulted by CPython's str.title(), given
on the code points this development manipulates: the ASCII letters and U+0130
(written `'İ'`) are cased; the remaining ASCII code points, U+0307 and every
other unmapped code point are not.  On every code point appearing in this
file this agrees with the Unicode Cased property. -/
def pyCased (c : Char) : Bool :=
  if c = 'İ' then true else c.isAlpha

/-- The full Unicode lowercase mapping, given on the code points this
development manipulates: U+0130 lowercases to the two code points
i + U+0307 (the mapping CPython applies inside str.title()); ASCII maps
through `Char.toLower`; other code points are unchanged. -/
def pyLowerChar (c : Char) : List Char :=
  if c = 'İ' then ['i', '̇'] else [c.toLower]

/-- The full Unicode titlecase mapping, given on the code points this
development manipulates: U+0130 is its own titlecase; ASCII maps through
`Char.toUpper`; other code points are unchanged. -/
def pyTitleChar (c : Char) : List Char :=
  if c = 'İ' then ['İ'] else [c.toUpper]

/-- One pass of CPython's do_title loop: each character is mapped with the
lowercase mapping when the previous input character was cased and with the
titlecase mapping otherwise, and the cased flag is updated from the input
character (not from the mapped output). -/
def titleChars : Bool → List Char → List Char
  | _, [] => []
  | prevCased, c :: cs =>
    (if prevCased then pyLowerChar c else pyTitleChar c) ++ titleChars (pyCased c) cs

/-- `str.title()` on strings (`participant_name.title()` in the source). -/
def pyTitle (s : String) : String :=
  ⟨titleChars false s.data⟩

/-- C5 counterexample: Python str.title() is not idempotent.  For the Turkish
name "HALİL", the first pass lowercases U+0130 to i + U+0307, giving "Hali̇l";
on the second pass the uncased combining mark U+0307 resets the cased flag,
so the final l is re-titlecased and the result "Hali̇L" differs. -/
theorem pyTitle_not_idempotent :
    pyTitle (pyTitle "HALİL") ≠ pyTitle "HALİL" := by
  decide

theorem titleChars_idem_ascii (l : List Char) (hl : ∀ c ∈ l, c.toNat < 128) :
    ∀ b : Bool, titleChars b (titleChars b l) = titleChars b l := by
  induction l with
  | nil => intro b; rfl
  | cons c cs ih =>
    intro b
    have hc : c.toNat < 128 := hl c (List.mem_cons_self c cs)
    have hrest : ∀ x ∈ cs, x.toNat < 128 := fun x hx => hl x (List.mem_cons_of_mem c hx)
    have hcI : ¬(c = 'İ') := by
      intro hce
      rw [hce] at hc
      exact absurd hc (by decide)
    by_cases ha : c.isAlpha = true
    · cases b with
      | true =>
        have hlowI : ¬(c.toLower = 'İ') := by
          intro hce
          have h1 := char_toLower_toNat_lt_128 c hc
          rw [hce] at h1
          exact absurd h1 (by decide)
        simp only [titleChars, pyLowerChar, pyCased, if_neg hcI, if_neg hlowI, ha,
          if_true, List.cons_append, List.nil_append, char_isAlpha_toLower_eq,
          char_toLower_toLower, ih hrest]
      | false =>
        have hupI : ¬(c.toUpper = 'İ') := by
          intro hce
          have h1 := char_toUpper_toNat_lt_128 c hc
          rw [hce] at h1
          exact absurd h1 (by decide)
        simp only [titleChars, pyLowerChar, pyTitleChar, pyCased, if_neg hcI,
          if_neg hupI, ha, if_true, Bool.false_eq_true, if_false,
          List.cons_append, List.nil_append, char_isAlpha_toUpper_eq,
          char_toUpper_toUpper, ih hrest]
    · have ha' : c.isAlpha = false := by simpa using ha
      have hlc := char_toLower_eq_self_of_not_alpha c ha'
      have huc := char_toUpper_eq_self_of_not_alpha c ha'
      cases b with
      | true =>
        simp only [titleChars, pyLowerChar, pyCased, if_neg hcI, ha', hlc,
          if_true, Bool.false_eq_true, if_false,
          List.cons_append, List.nil_append, ih hrest]
      | false =>
        simp only [titleChars, pyLowerChar, pyTitleChar, pyCased, if_neg hcI,
          ha', hlc, huc, Bool.false_eq_true, if_false,
          List.cons_append, List.nil_append, ih hrest]

/-- C5 (amended): the name title-case transformation is idempotent on every
ASCII name string (all characters with code points below 128); on full
Unicode input str.title() is not idempotent, because some lowercase mappings
emit uncased combining marks that re-titlecase the following letter on a
second pass. -/
theorem pyTitle_idempotent_ascii (s : String)
    (h : ∀ c ∈ s.data, c.toNat < 128) :
    pyTitle (pyTitle s) = pyTitle s := by
  unfold pyTitle
  exact congrArg String.mk (titleChars_idem_ascii s.data h false)

/-- Witness for C5's amended theorem on the ASCII string "mary jane". -/
theorem pyTitle_idempotent_ascii_witness :
    (∀ c ∈ ("mary jane" : String).data, c.toNat < 128) ∧
      pyTitle (pyTitle "mary jane") = pyTitle "mary jane" :=
  ⟨by decide, pyTitle_idempotent_ascii "mary jane" (by decide)⟩

/-- C4: the spec's concrete scenario — canvas 1000×400, measured text extent
300×60, offsets (7, 78) — yields origin (357, 152). -/
theorem calculate_centered_position_scenario :
    calculate_centered_position 1000 400 300 60 7 78 = (357, 152) := by
  decide

/-! ## Full certificate generator (`starting_ending.py`) -/

namespace StartingEnding

/-- One participant row of the full generator, as handed to
`generate_certificate` (`starting_ending.py`, lines 159-239): a mapping from
column name to value (a pandas row), together with two oracles abstracting
the imaging effects of processing this row —
`loadOk` for `cv2.imread(template_path)` succeeding, and `writeOk` for
`cv2.imwrite` plus `img2pdf.convert` both succeeding.
-/
structure Row where
  findCol : String → Option String
  loadOk : Bool
  writeOk : Bool

/-- Result of `generate_certificate` for one row: the returned pair
`(success, certificate_filename-or-error-message)`, the trace of text strings
drawn on the working image (in drawing order), and the trace of files written.
When `writeOk` is false the write is modelled as producing no files.
-/
structure RenderResult where
  ok : Bool
  msg : String
  drawn : List String
  files : List String

/-- Embedding of `generate_certificate` (`starting_ending.py`, lines 159-239).
Control flow follows the source: load the template (failure raises, caught by
the generic handler); look up and title-case `row["Name"]` (a missing column
raises `KeyError`, caught and reported); draw the name and then the two
hardcoded date placeholders `'25 Mar 22'` and `'14 Apr 22'` (the code reading
real date columns is commented out in the source); save PNG and convert to
PDF under `Internship_Completion_Certificate_<name>`.
-/
def generate_certificate (r : Row) : RenderResult :=
  if r.loadOk = false then
    { ok := false, msg := "Error generating certificate: Failed to load template",
      drawn := [], files := [] }
  else
    match r.findCol "Name" with
    | none =>
      { ok := false, msg := "Missing required column in data: Name",
        drawn := [], files := [] }
    | some nm =>
      let participant_name := pyTitle nm
      let drawnTexts := [participant_name, "25 Mar 22", "14 Apr 22"]
      let certificate_filename := "Internship_Completion_Certificate_" ++ participant_name
      if r.writeOk then
        { ok := true, msg := certificate_filename, drawn := drawnTexts,
          files := [certificate_filename ++ ".png", certificate_filename ++ ".pdf"] }
      else
        { ok := false, msg := "Error generating certificate: failed to save output",
          drawn := drawnTexts, files := [] }

/-- The `stats` accumulator of `generate_certificates_batch`
(`starting_ending.py`, line 262): total rows, success and failure counts, and
the failure list; error entries model the formatted strings
`f"Row (index+1): (message)"` as an explicit (1-based index, message) pair.
`files` is the trace of output files written during the loop.
-/
structure BatchStats where
  total : Nat
  success : Nat
  failed : Nat
  errors : List (Nat × String)
  files : List String

/-- The per-row loop of `generate_certificates_batch` (`starting_ending.py`,
lines 279-286): `idx` is the 0-based pandas row index; each row increments
exactly one of `success`/`failed`, and failures append `(idx + 1, message)`.
-/
def processRows : Nat → List Row → BatchStats → BatchStats
  | _, [], s => s
  | idx, r :: rest, s =>
    let res := generate_certificate r
    if res.ok then
      processRows (idx + 1) rest
        { s with success := s.success + 1, files := s.files ++ res.files }
    else
      processRows (idx + 1) rest
        { s with failed := s.failed + 1, errors := s.errors ++ [(idx + 1, res.msg)] }

/-- Input to a batch run of the full generator: whether the participants file and
the template file exist on disk (checked by `validate_file_exists` before the
loop), and the parsed rows.
-/
structure BatchInput where
  participantsExists : Bool
  templateExists : Bool
  rows : List Row

/-- The `stats` accumulator as it stands when the loop begins
(`starting_ending.py`, lines 262 and 275): counts at zero and
`total` set to the number of rows read. -/
def initStats (n : Nat) : BatchStats :=
  { total := n, success := 0, failed := 0, errors := [], files := [] }

/-- Embedding of `generate_certificates_batch` (`starting_ending.py`, lines
242-314).  A missing participants file or template raises
`FileNotFoundError`, caught at the bottom of the function and turned into
`sys.exit(1)` — modelled as `Except.error ()`.  Otherwise `stats["total"]` is
set to the row count and every row is processed by the loop.  The second
component is the trace of output files written during the run.
-/
def generate_certificates_batch (input : BatchInput) :
    Except Unit BatchStats × List String :=
  if input.participantsExists = false then (Except.error (), [])
  else if input.templateExists = false then (Except.error (), [])
  else
    (Except.ok (processRows 0 input.rows (initStats input.rows.length)),
     (processRows 0 input.rows (initStats input.rows.length)).files)

end StartingEnding

/-! ## Simple certificate generator (`juststart.py`) -/

namespace Juststart

/-- One participant row of the simple generator.  `juststart.py` validates that
the `Name` column exists before the loop (line 217), so inside the loop
`row["Name"]` always yields a value; `name` is `str(row["Name"])`.  `ioOk`
abstracts the imaging effects of `generate_simple_certificate` for this row:
`cv2.imread` of the template decoding and `cv2.imwrite` succeeding.
-/
structure SimpleRow where
  name : String
  ioOk : Bool

/-- Embedding of `generate_simple_certificate` (`juststart.py`, lines 127-177):
returns `True` when the template loads and the certificate is written, and
`False` when any step raises (the exception is caught inside the function).
-/
def generate_simple_certificate (r : SimpleRow) : Bool :=
  r.ioOk

/-- The `stats` accumulator of `juststart.generate_certificates_batch`
(line 200) plus the trace of files written. -/
structure SimpleStats where
  total : Nat
  success : Nat
  failed : Nat
  files : List String

/-- The per-row loop of `juststart.generate_certificates_batch` (lines 221-244):
each row calls `generate_simple_certificate` writing `<name>.png` on success,
and increments exactly one of the two counters.
-/
def processSimpleRows : List SimpleRow → SimpleStats → SimpleStats
  | [], s => s
  | r :: rest, s =>
    if generate_simple_certificate r then
      processSimpleRows rest
        { s with success := s.success + 1, files := s.files ++ [r.name ++ ".png"] }
    else
      processSimpleRows rest { s with failed := s.failed + 1 }

/-- Input to a batch run of the simple generator; `hasNameColumn` is the
upfront column check of `juststart.py` line 217. -/
structure SimpleBatchInput where
  participantsExists : Bool
  templateExists : Bool
  hasNameColumn : Bool
  rows : List SimpleRow

/-- The `stats` accumulator as it stands when the loop begins
(`juststart.py`, lines 200 and 213). -/
def initSimpleStats (n : Nat) : SimpleStats :=
  { total := n, success := 0, failed := 0, files := [] }

/-- Embedding of `juststart.generate_certificates_batch` (lines 180-267).
A missing participants file or template raises `FileNotFoundError` and a
missing `Name` column raises `ValueError`; all three are caught at the bottom
and turned into `sys.exit(1)` — modelled as `Except.error ()`.  The second
component is the trace of output files written during the run.
-/
def generate_certificates_batch (input : SimpleBatchInput) :
    Except Unit SimpleStats × List String :=
  if input.participantsExists = false then (Except.error (), [])
  else if input.templateExists = false then (Except.error (), [])
  else if input.hasNameColumn = false then (Except.error (), [])
  else
    (Except.ok (processSimpleRows input.rows (initSimpleStats input.rows.length)),
     (processSimpleRows input.rows (initSimpleStats input.rows.length)).files)

end Juststart

/-! ## Configuration validation (`config.py`) -/

namespace Config

/-- The style-relevant fields of `FontConfig` (`config.py`, lines 35-46).
Font sizes are Python floats holding exact decimal values, modelled as `ℚ`;
thickness and color channels are integers. -/
structure FontConfig where
  font_color_bgr : ℤ × ℤ × ℤ
  font_thickness : ℤ
  name_font_size : ℚ
  date_font_size : ℚ

/-- The default configuration instance (`config.py`, line 109). -/
def font_config : FontConfig :=
  { font_color_bgr := (68, 102, 253), font_thickness := 10,
    name_font_size := 38 / 10, date_font_size := 15 / 10 }

/-- Embedding of `validate_configuration` (`config.py`, lines 151-174): raise
`ValueError` (modelled as `Except.error` with the message) if a font size is
non-positive, then if a BGR channel is out of 0..255 (checked in order
b, g, r), then if the thickness is non-positive; otherwise return `True`.
-/
def validate_configuration (fc : FontConfig) : Except String Bool :=
  if fc.name_font_size ≤ 0 ∨ fc.date_font_size ≤ 0 then
    Except.error "Font sizes must be positive numbers"
  else if ¬(0 ≤ fc.font_color_bgr.1 ∧ fc.font_color_bgr.1 ≤ 255) then
    Except.error "Color values must be between 0 and 255"
  else if ¬(0 ≤ fc.font_color_bgr.2.1 ∧ fc.font_color_bgr.2.1 ≤ 255) then
    Except.error "Color values must be between 0 and 255"
  else if ¬(0 ≤ fc.font_color_bgr.2.2 ∧ fc.font_color_bgr.2.2 ≤ 255) then
    Except.error "Color values must be between 0 and 255"
  else if fc.font_thickness ≤ 0 then
    Except.error "Font thickness must be a positive number"
  else
    Except.ok true

/-- The valid-style predicate in the words of the spec (spec.md §7):
positive name and date font sizes, positive stroke thickness, and every
color channel within 0..255 inclusive. -/
def ValidStyle (fc : FontConfig) : Prop :=
  0 < fc.name_font_size ∧ 0 < fc.date_font_size ∧ 0 < fc.font_thickness ∧
    0 ≤ fc.font_color_bgr.1 ∧ fc.font_color_bgr.1 ≤ 255 ∧
    0 ≤ fc.font_color_bgr.2.1 ∧ fc.font_color_bgr.2.1 ≤ 255 ∧
    0 ≤ fc.font_color_bgr.2.2 ∧ fc.font_color_bgr.2.2 ≤ 255

end Config

/-! ## Batch loop invariants -/

namespace StartingEnding

theorem generate_certificate_fails_without_name (r : Row)
    (h : r.findCol "Name" = none) : (generate_certificate r).ok = false := by
  unfold generate_certificate
  by_cases hl : r.loadOk = false
  · rw [if_pos hl]
  · rw [if_neg hl, h]

theorem processRows_total (rows : List Row) :
    ∀ (idx : Nat) (s : BatchStats), (processRows idx rows s).total = s.total := by
  induction rows with
  | nil => intro idx s; rfl
  | cons r rest ih =>
    intro idx s
    unfold processRows
    by_cases h : (generate_certificate r).ok <;>
      simp only [h, if_true, Bool.false_eq_true, if_false] <;> rw [ih]

theorem processRows_balance (rows : List Row) :
    ∀ (idx : Nat) (s : BatchStats),
      (processRows idx rows s).success + (processRows idx rows s).failed =
        s.success + s.failed + rows.length := by
  induction rows with
  | nil => intro idx s; simp [processRows]
  | cons r rest ih =>
    intro idx s
    unfold processRows
    by_cases h : (generate_certificate r).ok <;>
      simp only [h, if_true, Bool.false_eq_true, if_false] <;> rw [ih] <;>
      simp <;> omega

theorem processRows_errors_mono (rows : List Row) :
    ∀ (idx : Nat) (s : BatchStats) (e : Nat × String),
      e ∈ s.errors → e ∈ (processRows idx rows s).errors := by
  induction rows with
  | nil => intro idx s e he; exact he
  | cons r rest ih =>
    intro idx s e he
    unfold processRows
    by_cases h : (generate_certificate r).ok <;>
      simp only [h, if_true, Bool.false_eq_true, if_false]
    · exact ih _ _ _ he
    · exact ih _ _ _ (by simp only [List.mem_append]; exact Or.inl he)

theorem processRows_failed_errors (rows : List Row) :
    ∀ (idx : Nat) (s : BatchStats),
      (processRows idx rows s).errors.length + s.failed =
        (processRows idx rows s).failed + s.errors.length := by
  induction rows with
  | nil => intro idx s; simp only [processRows]; omega
  | cons r rest ih =>
    intro idx s
    unfold processRows
    by_cases h : (generate_certificate r).ok <;>
      simp only [h, if_true, Bool.false_eq_true, if_false]
    · rw [ih]
    · have := ih (idx + 1)
        { s with failed := s.failed + 1,
                 errors := s.errors ++ [(idx + 1, (generate_certificate r).msg)] }
      simp only [List.length_append, List.length_cons, List.length_nil] at this ⊢
      omega

theorem processRows_records_failure (rows : List Row) :
    ∀ (idx j : Nat) (s : BatchStats) (r : Row),
      rows.get? j = some r → (generate_certificate r).ok = false →
        (idx + j + 1, (generate_certificate r).msg) ∈ (processRows idx rows s).errors := by
  induction rows with
  | nil => intro idx j s r hget; simp [List.get?] at hget
  | cons r0 rest ih =>
    intro idx j s r hget hfail
    cases j with
    | zero =>
      simp only [List.get?] at hget
      cases hget
      unfold processRows
      simp only [hfail, Bool.false_eq_true, if_false]
      refine processRows_errors_mono rest (idx + 1) _ _ ?_
      simp
    | succ j' =>
      simp only [List.get?] at hget
      unfold processRows
      by_cases h : (generate_certificate r0).ok <;>
        simp only [h, if_true, Bool.false_eq_true, if_false]
      · have := ih (idx + 1) j'
          { s with success := s.success + 1,
                   files := s.files ++ (generate_certificate r0).files }
          r hget hfail
        rwa [show idx + 1 + j' + 1 = idx + (j' + 1) + 1 by omega] at this
      · have := ih (idx + 1) j'
          { s with failed := s.failed + 1,
                   errors := s.errors ++ [(idx + 1, (generate_certificate r0).msg)] }
          r hget hfail
        rwa [show idx + 1 + j' + 1 = idx + (j' + 1) + 1 by omega] at this

end StartingEnding

namespace Juststart

theorem processSimpleRows_total (rows : List SimpleRow) :
    ∀ s : SimpleStats, (processSimpleRows rows s).total = s.total := by
  induction rows with
  | nil => intro s; rfl
  | cons r rest ih =>
    intro s
    unfold processSimpleRows
    by_cases h : generate_simple_certificate r <;>
      simp only [h, if_true, Bool.false_eq_true, if_false] <;> rw [ih]

theorem processSimpleRows_balance (rows : List SimpleRow) :
    ∀ s : SimpleStats,
      (processSimpleRows rows s).success + (processSimpleRows rows s).failed =
        s.success + s.failed + rows.length := by
  induction rows with
  | nil => intro s; simp [processSimpleRows]
  | cons r rest ih =>
    intro s
    unfold processSimpleRows
    by_cases h : generate_simple_certificate r <;>
      simp only [h, if_true, Bool.false_eq_true, if_false] <;> rw [ih] <;>
      simp <;> omega

end Juststart

/-! ## Claim theorems about the batch orchestrator -/

namespace StartingEnding

/-- C6: in a batch whose participants file and template both load, a
malformed row (its `Name` column missing) at 1-based position `i` does not
stop the run: the call returns normally with `total` equal to the row count,
at least one failure, `success = total - failed`, and an error entry carrying
index `i`. -/
theorem run_batch_isolates_malformed_row (input : BatchInput) (i : Nat) (r : Row)
    (hp : input.participantsExists = true) (ht : input.templateExists = true)
    (hi : 1 ≤ i)
    (hr : input.rows.get? (i - 1) = some r)
    (hmal : r.findCol "Name" = none) :
    ∃ s, (generate_certificates_batch input).1 = Except.ok s ∧
      s.total = input.rows.length ∧
      1 ≤ s.failed ∧
      s.success = input.rows.length - s.failed ∧
      ∃ m, (i, m) ∈ s.errors := by
  have hfail := generate_certificate_fails_without_name r hmal
  have hmem := processRows_records_failure input.rows 0 (i - 1)
    (initStats input.rows.length) r hr hfail
  rw [show 0 + (i - 1) + 1 = i by omega] at hmem
  have htot := processRows_total input.rows 0 (initStats input.rows.length)
  have hbal := processRows_balance input.rows 0 (initStats input.rows.length)
  have herr := processRows_failed_errors input.rows 0 (initStats input.rows.length)
  have hpos : 0 < (processRows 0 input.rows (initStats input.rows.length)).errors.length :=
    List.length_pos_of_mem hmem
  have hz0 : (initStats input.rows.length).total = input.rows.length := rfl
  have hz1 : (initStats input.rows.length).success = 0 := rfl
  have hz2 : (initStats input.rows.length).failed = 0 := rfl
  have hz3 : (initStats input.rows.length).errors.length = 0 := rfl
  unfold generate_certificates_batch
  rw [hp, ht]
  simp only [Bool.true_eq_false, if_false]
  exact ⟨_, rfl, by omega, by omega, by omega, ⟨_, hmem⟩⟩

/-- A well-formed row carrying the given name and successful imaging I/O. -/
def namedRow (nm : String) : Row :=
  { findCol := fun c => if c = "Name" then some nm else none,
    loadOk := true, writeOk := true }

/-- A malformed row: no `Name` column (nor any other). -/
def malformedRow : Row :=
  { findCol := fun _ => none, loadOk := true, writeOk := true }

/-- A three-row batch whose second row is malformed. -/
def sampleBatch : BatchInput :=
  { participantsExists := true, templateExists := true,
    rows := [namedRow "jane doe", malformedRow, namedRow "john smith"] }

/-- Witness for C6 on a concrete three-row batch with row 2 malformed. -/
theorem run_batch_isolates_malformed_row_witness :
    sampleBatch.participantsExists = true ∧ sampleBatch.templateExists = true ∧
      1 ≤ 2 ∧ sampleBatch.rows.get? (2 - 1) = some malformedRow ∧
      malformedRow.findCol "Name" = none ∧
      ∃ s, (generate_certificates_batch sampleBatch).1 = Except.ok s ∧
        s.total = sampleBatch.rows.length ∧
        1 ≤ s.failed ∧
        s.success = sampleBatch.rows.length - s.failed ∧
        ∃ m, (2, m) ∈ s.errors :=
  ⟨rfl, rfl, by omega, rfl, rfl,
    run_batch_isolates_malformed_row sampleBatch 2 malformedRow rfl rfl
      (by omega) rfl rfl⟩

/-- C7: for every row the full renderer actually processes (template decoded,
`Name` present), the texts drawn are the title-cased name followed by exactly
the hardcoded placeholder date strings `"25 Mar 22"` and `"14 Apr 22"` —
independent of every other column of the record, date columns included, and
independent of whether the subsequent write succeeds. -/
theorem generate_certificate_dates_hardcoded (r : Row) (nm : String)
    (hload : r.loadOk = true) (hname : r.findCol "Name" = some nm) :
    (generate_certificate r).drawn = [pyTitle nm, "25 Mar 22", "14 Apr 22"] := by
  unfold generate_certificate
  rw [hload, hname]
  by_cases hw : r.writeOk <;> simp [hw]

/-- Witness for C7 on a concrete row named "jane doe". -/
theorem generate_certificate_dates_hardcoded_witness :
    (namedRow "jane doe").loadOk = true ∧
      (namedRow "jane doe").findCol "Name" = some "jane doe" ∧
      (generate_certificate (namedRow "jane doe")).drawn =
        [pyTitle "jane doe", "25 Mar 22", "14 Apr 22"] :=
  ⟨rfl, rfl, generate_certificate_dates_hardcoded (namedRow "jane doe") "jane doe" rfl rfl⟩

end StartingEnding

/-- C8: in both generators, a missing template file makes the whole batch run
fail fatally (`sys.exit(1)`, modelled as `Except.error ()`) before any row is
processed, and no output file is written. -/
theorem run_batch_missing_template_fatal
    (sIn : Juststart.SimpleBatchInput) (fIn : StartingEnding.BatchInput)
    (hs : sIn.templateExists = false) (hf : fIn.templateExists = false) :
    Juststart.generate_certificates_batch sIn = (Except.error (), []) ∧
      StartingEnding.generate_certificates_batch fIn = (Except.error (), []) := by
  constructor
  · unfold Juststart.generate_certificates_batch
    by_cases hp : sIn.participantsExists = false <;> simp [hp, hs]
  · unfold StartingEnding.generate_certificates_batch
    by_cases hp : fIn.participantsExists = false <;> simp [hp, hf]

/-- A three-row simple-generator batch whose template file is missing. -/
def sampleMissingTemplateSimple : Juststart.SimpleBatchInput :=
  { participantsExists := true, templateExists := false, hasNameColumn := true,
    rows := [{ name := "a", ioOk := true }, { name := "b", ioOk := true },
             { name := "c", ioOk := true }] }

/-- A three-row full-generator batch whose template file is missing. -/
def sampleMissingTemplateFull : StartingEnding.BatchInput :=
  { participantsExists := true, templateExists := false,
    rows := [StartingEnding.namedRow "a", StartingEnding.namedRow "b",
             StartingEnding.namedRow "c"] }

/-- Witness for C8 on concrete three-row batches with a missing template. -/
theorem run_batch_missing_template_fatal_witness :
    sampleMissingTemplateSimple.templateExists = false ∧
      sampleMissingTemplateFull.templateExists = false ∧
      (Juststart.generate_certificates_batch sampleMissingTemplateSimple =
          (Except.error (), []) ∧
        StartingEnding.generate_certificates_batch sampleMissingTemplateFull =
          (Except.error (), [])) :=
  ⟨rfl, rfl,
    run_batch_missing_template_fatal sampleMissingTemplateSimple
      sampleMissingTemplateFull rfl rfl⟩

/-- C10: in both generators, every batch run that returns statistics (no
fatal error) satisfies `success + failed = total` with `total` the number of
input rows: the loop increments exactly one of the two counters per row,
starting from zero. -/
theorem run_batch_stats_add_up
    (sIn : Juststart.SimpleBatchInput) (fIn : StartingEnding.BatchInput)
    (s1 : Juststart.SimpleStats) (s2 : StartingEnding.BatchStats)
    (h1 : (Juststart.generate_certificates_batch sIn).1 = Except.ok s1)
    (h2 : (StartingEnding.generate_certificates_batch fIn).1 = Except.ok s2) :
    (s1.success + s1.failed = s1.total ∧ s1.total = sIn.rows.length) ∧
      (s2.success + s2.failed = s2.total ∧ s2.total = fIn.rows.length) := by
  constructor
  · unfold Juststart.generate_certificates_batch at h1
    by_cases hp : sIn.participantsExists = false
    · rw [if_pos hp] at h1
      exact absurd h1 (by simp)
    · rw [if_neg hp] at h1
      by_cases ht : sIn.templateExists = false
      · rw [if_pos ht] at h1
        exact absurd h1 (by simp)
      · rw [if_neg ht] at h1
        by_cases hn : sIn.hasNameColumn = false
        · rw [if_pos hn] at h1
          exact absurd h1 (by simp)
        · rw [if_neg hn] at h1
          simp only [Except.ok.injEq] at h1
          subst h1
          have hbal := Juststart.processSimpleRows_balance sIn.rows
            (Juststart.initSimpleStats sIn.rows.length)
          have htot := Juststart.processSimpleRows_total sIn.rows
            (Juststart.initSimpleStats sIn.rows.length)
          have hz0 : (Juststart.initSimpleStats sIn.rows.length).total =
              sIn.rows.length := rfl
          have hz1 : (Juststart.initSimpleStats sIn.rows.length).success = 0 := rfl
          have hz2 : (Juststart.initSimpleStats sIn.rows.length).failed = 0 := rfl
          exact ⟨by omega, by omega⟩
  · unfold StartingEnding.generate_certificates_batch at h2
    by_cases hp : fIn.participantsExists = false
    · rw [if_pos hp] at h2
      exact absurd h2 (by simp)
    · rw [if_neg hp] at h2
      by_cases ht : fIn.templateExists = false
      · rw [if_pos ht] at h2
        exact absurd h2 (by simp)
      · rw [if_neg ht] at h2
        simp only [Except.ok.injEq] at h2
        subst h2
        have hbal := StartingEnding.processRows_balance fIn.rows 0
          (StartingEnding.initStats fIn.rows.length)
        have htot := StartingEnding.processRows_total fIn.rows 0
          (StartingEnding.initStats fIn.rows.length)
        have hz0 : (StartingEnding.initStats fIn.rows.length).total =
            fIn.rows.length := rfl
        have hz1 : (StartingEnding.initStats fIn.rows.length).success = 0 := rfl
        have hz2 : (StartingEnding.initStats fIn.rows.length).failed = 0 := rfl
        exact ⟨by omega, by omega⟩

/-- A two-row simple-generator batch: one successful row, one failing row. -/
def sampleMixedSimple : Juststart.SimpleBatchInput :=
  { participantsExists := true, templateExists := true, hasNameColumn := true,
    rows := [{ name := "alice", ioOk := true }, { name := "bob", ioOk := false }] }

/-- A two-row full-generator batch: one successful row, one malformed row. -/
def sampleMixedFull : StartingEnding.BatchInput :=
  { participantsExists := true, templateExists := true,
    rows := [StartingEnding.namedRow "jane doe", StartingEnding.malformedRow] }

/-- The statistics produced by `sampleMixedSimple`. -/
def sampleMixedSimpleStats : Juststart.SimpleStats :=
  { total := 2, success := 1, failed := 1, files := ["alice.png"] }

/-- The statistics produced by `sampleMixedFull`. -/
def sampleMixedFullStats : StartingEnding.BatchStats :=
  { total := 2, success := 1, failed := 1,
    errors := [(2, "Missing required column in data: Name")],
    files := ["Internship_Completion_Certificate_Jane Doe.png",
              "Internship_Completion_Certificate_Jane Doe.pdf"] }

/-- Witness for C10 on concrete mixed-outcome batches. -/
theorem run_batch_stats_add_up_witness :
    (Juststart.generate_certificates_batch sampleMixedSimple).1 =
        Except.ok sampleMixedSimpleStats ∧
      (StartingEnding.generate_certificates_batch sampleMixedFull).1 =
        Except.ok sampleMixedFullStats ∧
      ((sampleMixedSimpleStats.success + sampleMixedSimpleStats.failed =
            sampleMixedSimpleStats.total ∧
          sampleMixedSimpleStats.total = sampleMixedSimple.rows.length) ∧
        (sampleMixedFullStats.success + sampleMixedFullStats.failed =
            sampleMixedFullStats.total ∧
          sampleMixedFullStats.total = sampleMixedFull.rows.length)) :=
  ⟨rfl, rfl, run_batch_stats_add_up sampleMixedSimple sampleMixedFull
    sampleMixedSimpleStats sampleMixedFullStats rfl rfl⟩

/-! ## Claim theorem about configuration validation -/

namespace Config

/-- C9: `validate_configuration` accepts (returns `True` for) exactly the
configurations whose style values are all valid — positive name and date
font sizes, positive stroke thickness, every color channel in 0..255 — and
rejects (raises `ValueError` for) exactly the others.  The check is a pure
function of the configuration alone, evaluated before any row processing. -/
theorem validate_error_branch {V : Prop} (msg : String) (hnv : ¬V) :
    ((Except.error msg : Except String Bool) = Except.ok true ↔ V) ∧
      ((∃ m, (Except.error msg : Except String Bool) = Except.error m) ↔ ¬V) :=
  ⟨⟨fun hc => Except.noConfusion hc, fun hv => absurd hv hnv⟩,
    ⟨fun _ => hnv, fun _ => ⟨msg, rfl⟩⟩⟩

theorem validate_ok_branch {V : Prop} (hv : V) :
    ((Except.ok true : Except String Bool) = Except.ok true ↔ V) ∧
      ((∃ m, (Except.ok true : Except String Bool) = Except.error m) ↔ ¬V) :=
  ⟨⟨fun _ => hv, fun _ => rfl⟩,
    ⟨fun hex => absurd hv (fun _ => Except.noConfusion hex.choose_spec),
      fun hnv => absurd hv hnv⟩⟩

theorem validate_configuration_exact (fc : FontConfig) :
    (validate_configuration fc = Except.ok true ↔ ValidStyle fc) ∧
      ((∃ m, validate_configuration fc = Except.error m) ↔ ¬ ValidStyle fc) := by
  unfold validate_configuration ValidStyle
  by_cases h1 : fc.name_font_size ≤ 0 ∨ fc.date_font_size ≤ 0
  · rw [if_pos h1]
    refine validate_error_branch _ fun hv => ?_
    rcases h1 with h1 | h1
    · exact absurd hv.1 (not_lt.mpr h1)
    · exact absurd hv.2.1 (not_lt.mpr h1)
  · rw [if_neg h1]
    by_cases h2 : 0 ≤ fc.font_color_bgr.1 ∧ fc.font_color_bgr.1 ≤ 255
    · rw [if_neg (not_not_intro h2)]
      by_cases h3 : 0 ≤ fc.font_color_bgr.2.1 ∧ fc.font_color_bgr.2.1 ≤ 255
      · rw [if_neg (not_not_intro h3)]
        by_cases h4 : 0 ≤ fc.font_color_bgr.2.2 ∧ fc.font_color_bgr.2.2 ≤ 255
        · rw [if_neg (not_not_intro h4)]
          by_cases h5 : fc.font_thickness ≤ 0
          · rw [if_pos h5]
            exact validate_error_branch _ fun hv => absurd hv.2.2.1 (not_lt.mpr h5)
          · rw [if_neg h5]
            push_neg at h1
            exact validate_ok_branch
              ⟨h1.1, h1.2, not_le.mp h5, h2.1, h2.2, h3.1, h3.2, h4.1, h4.2⟩
        · rw [if_pos h4]
          exact validate_error_branch _ fun hv =>
            absurd ⟨hv.2.2.2.2.2.2.2.1, hv.2.2.2.2.2.2.2.2⟩ h4
      · rw [if_pos h3]
        exact validate_error_branch _ fun hv =>
          absurd ⟨hv.2.2.2.2.2.1, hv.2.2.2.2.2.2.1⟩ h3
    · rw [if_pos h2]
      exact validate_error_branch _ fun hv =>
        absurd ⟨hv.2.2.2.1, hv.2.2.2.2.1⟩ h2

end Config

end CertGen
